import Mathlib

/-!
Verification development for the bicycle spoke-length calculator.

The source is a single React component.  The computational parts modelled
here are, in source order: the input record and its string fields, the
calculate handler with its fill-all-fields guard and the inner
calculateLength closure, the save / load / delete handlers over the saved
collection and its localStorage mirror, and the JSON export / import pair.

JavaScript doubles are modelled as exact real numbers; the single
JavaScript value NaN (together with the non-finite infinities, which in
this program always flow through cos or floor and collapse to NaN) is
modelled by a separate constructor.
-/

namespace SpokeCalc

open Real

/-- A JavaScript number as this program can observe it: a finite real, or
nan.  Division by zero produces Infinity or NaN in JavaScript; in this
program such a value is only ever passed to cos or floor, both of which
turn it into NaN, so non-finite values are conflated into the nan
constructor. -/
inductive JSNum where
  | num (x : ℝ)
  | nan

/-- The result record: each side is null (not yet computed) or a number. -/
structure Results where
  left : Option JSNum
  right : Option JSNum

/-- The nine string-typed input fields, in source order. -/
structure Inputs where
  erd : String
  pitchCircleLeft : String
  pitchCircleRight : String
  flangeDistanceLeft : String
  flangeDistanceRight : String
  spokeHoleDiameter : String
  numberOfSpokes : String
  crossingsLeft : String
  crossingsRight : String

/-- Numeric value of a list of decimal digit characters. -/
def digitsToNat (ds : List Char) : ℕ :=
  ds.foldl (fun n c => 10 * n + (c.toNat - 48)) 0

/-- Strip an optional leading sign; true means negative. -/
def parseSign : List Char → Bool × List Char
  | '-' :: rest => (true, rest)
  | '+' :: rest => (false, rest)
  | cs => (false, cs)

/-- Structural part of the JavaScript parseFloat builtin restricted to
plain decimal numerals: an optional sign, then digits with an optional
fractional part; any trailing characters are ignored, exponents, Infinity
and leading whitespace are not modelled (no input of this program uses
them).  Returns the sign, the integer part, the fraction digits as a
number, and the fraction length; none models NaN. -/
def parseFloatParts (s : String) : Option (Bool × ℕ × ℕ × ℕ) :=
  let p := parseSign s.data
  let intDs := p.2.takeWhile (·.isDigit)
  let rest := p.2.dropWhile (·.isDigit)
  let fracDs := match rest with
    | '.' :: r => r.takeWhile (·.isDigit)
    | _ => []
  if intDs.isEmpty && fracDs.isEmpty then none
  else some (p.1, digitsToNat intDs, digitsToNat fracDs, fracDs.length)

/-- Rational value of a parsed decimal numeral. -/
def partsToQ : Bool × ℕ × ℕ × ℕ → ℚ
  | (neg, ip, fp, fl) =>
    if neg then -((ip : ℚ) + (fp : ℚ) / (10 ^ fl)) else (ip : ℚ) + (fp : ℚ) / (10 ^ fl)

/-- Model of the JavaScript parseFloat builtin; none models NaN. -/
def parseFloatQ (s : String) : Option ℚ :=
  (parseFloatParts s).map partsToQ

/-- Model of the JavaScript parseInt builtin with inferred radix 10: an
optional sign followed by leading decimal digits, ignoring the rest of the
string; none models NaN. -/
def parseIntZ (s : String) : Option ℤ :=
  let p := parseSign s.data
  let ds := p.2.takeWhile (·.isDigit)
  if ds.isEmpty then none
  else some (if p.1 then -(digitsToNat ds : ℤ) else (digitsToNat ds : ℤ))

/-- parseFloat as the program uses it, producing a JS number. -/
noncomputable def parseFloatJS (s : String) : JSNum :=
  match parseFloatQ s with
  | some q => .num (q : ℝ)
  | none => .nan

/-- parseInt as the program uses it, producing a JS number. -/
noncomputable def parseIntJS (s : String) : JSNum :=
  match parseIntZ s with
  | some z => .num (z : ℝ)
  | none => .nan

/-- JS addition with NaN propagation. -/
def jsAdd : JSNum → JSNum → JSNum
  | .num a, .num b => .num (a + b)
  | _, _ => .nan

/-- JS subtraction with NaN propagation. -/
def jsSub : JSNum → JSNum → JSNum
  | .num a, .num b => .num (a - b)
  | _, _ => .nan

/-- JS multiplication with NaN propagation. -/
def jsMul : JSNum → JSNum → JSNum
  | .num a, .num b => .num (a * b)
  | _, _ => .nan

/-- JS division: division by zero yields a non-finite value (Infinity or
NaN), here conflated into nan; otherwise exact real division. -/
noncomputable def jsDiv : JSNum → JSNum → JSNum
  | .num a, .num b => if b = 0 then .nan else .num (a / b)
  | _, _ => .nan

/-- Math.cos: NaN on any non-finite argument. -/
noncomputable def jsCos : JSNum → JSNum
  | .num a => .num (Real.cos a)
  | .nan => .nan

/-- Math.sqrt: NaN on a negative or non-finite argument. -/
noncomputable def jsSqrt : JSNum → JSNum
  | .num a => if a < 0 then .nan else .num (Real.sqrt a)
  | .nan => .nan

/-- Math.floor, NaN preserved. -/
noncomputable def jsFloor : JSNum → JSNum
  | .num a => .num (⌊a⌋ : ℝ)
  | .nan => .nan

/-- The inner calculateLength closure of calculateSpokeLength: cosine rule
for the planar chord, Pythagorean step for the three-dimensional length,
then floor to 0.1 mm.  The first three arguments are the captured
erdNum, shdNum and spokesNum values; the last three are the per-side
pitchCircle, flangeDistance and crossings parameters. -/
noncomputable def calculateLength (erdNum shdNum spokesNum : JSNum)
    (pitchCircle flangeDistance crossings : JSNum) : JSNum :=
  let A := jsDiv pitchCircle (.num 2)
  let B := jsDiv erdNum (.num 2)
  let spokesPerSide := jsDiv spokesNum (.num 2)
  let theta := jsDiv (jsMul (jsMul (.num 2) (.num Real.pi)) crossings) spokesPerSide
  let C := jsSqrt (jsSub (jsAdd (jsMul A A) (jsMul B B))
    (jsMul (jsMul (jsMul (.num 2) A) B) (jsCos theta)))
  let w := flangeDistance
  let d := shdNum
  let len := jsSub (jsSqrt (jsAdd (jsMul C C) (jsMul w w))) (jsDiv d (.num 2))
  jsDiv (jsFloor (jsMul len (.num 10))) (.num 10)

/-- The calculate handler: if any of the nine string fields is empty
(the only falsy string) it shows a warning and leaves the displayed
results unchanged, modelled by none; otherwise it parses every field and
sets both sides of the result record. -/
noncomputable def calculateSpokeLength (i : Inputs) : Option Results :=
  if i.erd = "" ∨ i.pitchCircleLeft = "" ∨ i.pitchCircleRight = "" ∨
      i.flangeDistanceLeft = "" ∨ i.flangeDistanceRight = "" ∨
      i.spokeHoleDiameter = "" ∨ i.numberOfSpokes = "" ∨
      i.crossingsLeft = "" ∨ i.crossingsRight = "" then
    none
  else
    let erdNum := parseFloatJS i.erd
    let pclNum := parseFloatJS i.pitchCircleLeft
    let pcrNum := parseFloatJS i.pitchCircleRight
    let fdlNum := parseFloatJS i.flangeDistanceLeft
    let fdrNum := parseFloatJS i.flangeDistanceRight
    let shdNum := parseFloatJS i.spokeHoleDiameter
    let spokesNum := parseIntJS i.numberOfSpokes
    let intlNum := parseIntJS i.crossingsLeft
    let intrNum := parseIntJS i.crossingsRight
    some { left := some (calculateLength erdNum shdNum spokesNum pclNum fdlNum intlNum),
           right := some (calculateLength erdNum shdNum spokesNum pcrNum fdrNum intrNum) }

/-- Rounding policy named by the specification: round down to 0.1 mm. -/
noncomputable def floor10 (x : ℝ) : ℝ := (⌊x * 10⌋ : ℝ) / 10

/-- Spoke length written from the words of the specification: A and B the
flange and rim radii, theta from the crossing count, chord by the law of
cosines, three-dimensional length by the Pythagorean theorem corrected by
half the spoke-hole diameter.  Stated over exact reals. -/
noncomputable def specLength (pcd erd fd shd n cr : ℝ) : ℝ :=
  Real.sqrt ((Real.sqrt ((pcd / 2) ^ 2 + (erd / 2) ^ 2 -
    2 * (pcd / 2) * (erd / 2) * Real.cos (2 * Real.pi * cr / (n / 2)))) ^ 2 + fd ^ 2)
    - shd / 2

/-- A saved calculation entry: id comes from Date.now (milliseconds,
modelled as a natural number), the timestamp is a preformatted string. -/
structure SavedCalculation where
  id : ℕ
  name : String
  inputs : Inputs
  results : Results
  timestamp : String

/-- The mutable application state touched by the handlers modelled here:
the working inputs and results, the in-memory saved collection, the
pending calculation-name field, and the localStorage mirror of the saved
collection under the spokeCalculations key. -/
structure AppState where
  inputs : Inputs
  results : Results
  savedCalculations : List SavedCalculation
  calculationName : String
  storage : List SavedCalculation

/-- The nine input fields, for the field-update handler. -/
inductive Field where
  | erd
  | pitchCircleLeft
  | pitchCircleRight
  | flangeDistanceLeft
  | flangeDistanceRight
  | spokeHoleDiameter
  | numberOfSpokes
  | crossingsLeft
  | crossingsRight

/-- Functional record update used by handleInputChange: a fresh inputs
object with one field replaced. -/
def setField (i : Inputs) : Field → String → Inputs
  | .erd, v => { i with erd := v }
  | .pitchCircleLeft, v => { i with pitchCircleLeft := v }
  | .pitchCircleRight, v => { i with pitchCircleRight := v }
  | .flangeDistanceLeft, v => { i with flangeDistanceLeft := v }
  | .flangeDistanceRight, v => { i with flangeDistanceRight := v }
  | .spokeHoleDiameter, v => { i with spokeHoleDiameter := v }
  | .numberOfSpokes, v => { i with numberOfSpokes := v }
  | .crossingsLeft, v => { i with crossingsLeft := v }
  | .crossingsRight, v => { i with crossingsRight := v }

/-- The handleInputChange handler. -/
def handleInputChange (s : AppState) (f : Field) (v : String) : AppState :=
  { s with inputs := setField s.inputs f v }

/-- Model of the JavaScript trim method on strings: whitespace characters
are removed from both ends. -/
def jsTrim (s : String) : String :=
  ⟨((s.data.dropWhile (·.isWhitespace)).reverse.dropWhile (·.isWhitespace)).reverse⟩

/-- Outcome of the save handler, matching the three toasts it can show. -/
inductive SaveMsg where
  | saved
  | enterCalculationName
  | performCalculationFirst
deriving DecidableEq

/-- The saveCalculation handler: warns and changes nothing when the
trimmed name is empty or a result side is null; otherwise appends one new
entry (id from Date.now, supplied here as now) to the collection, writes
the whole updated collection to localStorage, and clears the pending
name. -/
def saveCalculation (now : ℕ) (ts : String) (s : AppState) : AppState × SaveMsg :=
  if jsTrim s.calculationName = "" then
    (s, .enterCalculationName)
  else
    match s.results.left, s.results.right with
    | some _, some _ =>
      let nc : SavedCalculation :=
        { id := now, name := s.calculationName, inputs := s.inputs,
          results := s.results, timestamp := ts }
      let updated := s.savedCalculations ++ [nc]
      ({ s with savedCalculations := updated, storage := updated,
                calculationName := "" }, .saved)
    | _, _ => (s, .performCalculationFirst)

/-- The loadCalculation handler: the chosen entry becomes the working
inputs and results. -/
def loadCalculation (s : AppState) (c : SavedCalculation) : AppState :=
  { s with inputs := c.inputs, results := c.results }

/-- The confirmed branch of the delete dialog: every entry with the
chosen id is filtered out and the whole updated collection is written to
localStorage. -/
def confirmDelete (id : ℕ) (s : AppState) : AppState :=
  let updated := s.savedCalculations.filter (fun c => c.id ≠ id)
  { s with savedCalculations := updated, storage := updated }

/-- User-triggered operations over the application state. -/
inductive Op where
  | edit (f : Field) (v : String)
  | setName (v : String)
  | calculate
  | save (now : ℕ) (ts : String)
  | load (idx : ℕ)
  | delete (id : ℕ)

/-- One operation step.  The calculate step keeps the displayed results
when the handler warns, the load step is a no-op on an out-of-range
index. -/
noncomputable def applyOp (s : AppState) : Op → AppState
  | .edit f v => handleInputChange s f v
  | .setName v => { s with calculationName := v }
  | .calculate =>
    match calculateSpokeLength s.inputs with
    | none => s
    | some r => { s with results := r }
  | .save now ts => (saveCalculation now ts s).1
  | .load idx =>
    match s.savedCalculations.get? idx with
    | some c => loadCalculation s c
    | none => s
  | .delete id => confirmDelete id s

/-- Fold a list of operations over the state. -/
noncomputable def applyOps (s : AppState) (ops : List Op) : AppState :=
  ops.foldl applyOp s

/-- Ids present in the saved collection. -/
def savedIds (s : AppState) : List ℕ :=
  s.savedCalculations.map SavedCalculation.id

/-- Clock values consumed by the save operations of a list, in order. -/
def saveTimes : List Op → List ℕ
  | [] => []
  | .save now _ :: rest => now :: saveTimes rest
  | _ :: rest => saveTimes rest

/-- A parsed JSON document.  Numbers are JSON numbers (always finite). -/
inductive Json where
  | jnull
  | jbool (b : Bool)
  | jnum (x : ℝ)
  | jstr (s : String)
  | jarr (elems : List Json)
  | jobj (fields : List (String × Json))

/-- First binding of a key in an object field list. -/
def lookupKey : List (String × Json) → String → Option Json
  | [], _ => none
  | (k, v) :: rest, key => if k = key then some v else lookupKey rest key

/-- JavaScript property access on a parsed JSON value: a binding on an
object, undefined (none) on everything else.  Access on null throws;
the loadFromJSON handler treats that case separately. -/
def Json.getField : Json → String → Option Json
  | .jobj fs, k => lookupKey fs k
  | _, _ => none

/-- Whether an object document carries a top-level key, regardless of the
value stored under it. -/
def Json.hasKey : Json → String → Bool
  | .jobj fs, k => fs.any (fun p => p.1 == k)
  | _, _ => false

/-- JavaScript truthiness of a JSON value: null, false, zero and the
empty string are falsy, every object and array is truthy. -/
def Json.truthy : Json → Prop
  | .jnull => False
  | .jbool b => b = true
  | .jnum x => x ≠ 0
  | .jstr s => s ≠ ""
  | .jarr _ => True
  | .jobj _ => True

/-- An absent binding (undefined) is falsy. -/
def optTruthy : Option Json → Prop
  | none => False
  | some v => v.truthy

/-- The dynamically-typed working state as the import path sees it: after
a successful import the working inputs and results hold whatever JSON
values the document carried. -/
structure DynState where
  inputs : Json
  results : Json

/-- Outcome of the import handler, matching its three toasts. -/
inductive ImportMsg where
  | jsonLoaded
  | invalidJsonFormat
  | jsonLoadFailed
deriving DecidableEq

open Classical in
/-- The loadFromJSON handler.  The raw argument is the result of
JSON.parse: none when parsing threw.  Property access on a null document
throws a TypeError that lands in the same catch as a parse failure.
Otherwise the handler checks the truthiness of the inputs and results
members and either installs them as the working state or warns and leaves
the state unchanged. -/
noncomputable def loadFromJSON (raw : Option Json) (s : DynState) : DynState × ImportMsg :=
  match raw with
  | none => (s, .jsonLoadFailed)
  | some .jnull => (s, .jsonLoadFailed)
  | some j =>
    match j.getField "inputs", j.getField "results" with
    | some vi, some vr =>
      if vi.truthy ∧ vr.truthy then (⟨vi, vr⟩, .jsonLoaded)
      else (s, .invalidJsonFormat)
    | _, _ => (s, .invalidJsonFormat)

/-- JSON.stringify of a result side: null stays null, a finite number is
kept, and NaN serializes as null. -/
def encodeJSNumOpt : Option JSNum → Json
  | none => .jnull
  | some (.num x) => .jnum x
  | some .nan => .jnull

/-- The results member of the export document. -/
def encodeResults (r : Results) : Json :=
  .jobj [("left", encodeJSNumOpt r.left), ("right", encodeJSNumOpt r.right)]

/-- The inputs member of the export document: the nine string fields in
source order. -/
def encodeInputs (i : Inputs) : Json :=
  .jobj [("erd", .jstr i.erd),
         ("pitchCircleLeft", .jstr i.pitchCircleLeft),
         ("pitchCircleRight", .jstr i.pitchCircleRight),
         ("flangeDistanceLeft", .jstr i.flangeDistanceLeft),
         ("flangeDistanceRight", .jstr i.flangeDistanceRight),
         ("spokeHoleDiameter", .jstr i.spokeHoleDiameter),
         ("numberOfSpokes", .jstr i.numberOfSpokes),
         ("crossingsLeft", .jstr i.crossingsLeft),
         ("crossingsRight", .jstr i.crossingsRight)]

/-- The exportToJSON handler: warns (none) unless both result sides are
non-null, otherwise builds the export document with the supplied ISO
timestamp and the fixed metadata block. -/
def exportToJSON (ts : String) (i : Inputs) (r : Results) : Option Json :=
  match r.left, r.right with
  | some _, some _ =>
    some (.jobj [("inputs", encodeInputs i),
                 ("results", encodeResults r),
                 ("timestamp", .jstr ts),
                 ("metadata", .jobj [("calculator", .jstr "Bicycle Spoke Length Calculator"),
                                     ("version", .jstr "1.0")])])
  | _, _ => none

/-- Reading a result side back out of an imported document: null means a
null side, a number means a numeric side; anything else does not decode
to a result side. -/
def decodeJSNumOpt : Json → Option (Option JSNum)
  | .jnull => some none
  | .jnum x => some (some (.num x))
  | _ => none

/-- Reading a results record back out of an imported document. -/
def decodeResults (j : Json) : Option Results :=
  match j.getField "left", j.getField "right" with
  | some jl, some jr =>
    match decodeJSNumOpt jl, decodeJSNumOpt jr with
    | some l, some r => some ⟨l, r⟩
    | _, _ => none
  | _, _ => none

/-- String stored under a key of an imported document. -/
def Json.getStr (j : Json) (k : String) : Option String :=
  match j.getField k with
  | some (.jstr s) => some s
  | _ => none

/-- Reading an inputs record back out of an imported document. -/
def decodeInputs (j : Json) : Option Inputs :=
  match j.getStr "erd", j.getStr "pitchCircleLeft", j.getStr "pitchCircleRight",
      j.getStr "flangeDistanceLeft", j.getStr "flangeDistanceRight",
      j.getStr "spokeHoleDiameter", j.getStr "numberOfSpokes",
      j.getStr "crossingsLeft", j.getStr "crossingsRight" with
  | some a, some b, some c, some d, some e, some f, some g, some h, some k =>
    some ⟨a, b, c, d, e, f, g, h, k⟩
  | _, _, _, _, _, _, _, _, _ => none

/-! Evaluation lemmas for the JS number operations. -/

@[simp] lemma jsAdd_num_num (a b : ℝ) : jsAdd (.num a) (.num b) = .num (a + b) := rfl

@[simp] lemma jsSub_num_num (a b : ℝ) : jsSub (.num a) (.num b) = .num (a - b) := rfl

@[simp] lemma jsMul_num_num (a b : ℝ) : jsMul (.num a) (.num b) = .num (a * b) := rfl

lemma jsDiv_num_num (a b : ℝ) (hb : b ≠ 0) : jsDiv (.num a) (.num b) = .num (a / b) := by
  simp [jsDiv, hb]

@[simp] lemma jsCos_num (a : ℝ) : jsCos (.num a) = .num (Real.cos a) := rfl

lemma jsSqrt_num_of_nonneg {a : ℝ} (h : 0 ≤ a) : jsSqrt (.num a) = .num (Real.sqrt a) := by
  simp [jsSqrt, not_lt.mpr h]

@[simp] lemma jsFloor_num (a : ℝ) : jsFloor (.num a) = .num (⌊a⌋ : ℝ) := rfl

@[simp] lemma jsAdd_nan_left (b : JSNum) : jsAdd .nan b = .nan := by cases b <;> rfl

@[simp] lemma jsAdd_nan_right (a : JSNum) : jsAdd a .nan = .nan := by cases a <;> rfl

@[simp] lemma jsSub_nan_left (b : JSNum) : jsSub .nan b = .nan := by cases b <;> rfl

@[simp] lemma jsSub_nan_right (a : JSNum) : jsSub a .nan = .nan := by cases a <;> rfl

@[simp] lemma jsMul_nan_left (b : JSNum) : jsMul .nan b = .nan := by cases b <;> rfl

@[simp] lemma jsMul_nan_right (a : JSNum) : jsMul a .nan = .nan := by cases a <;> rfl

@[simp] lemma jsDiv_nan_left (b : JSNum) : jsDiv .nan b = .nan := by cases b <;> rfl

@[simp] lemma jsDiv_nan_right (a : JSNum) : jsDiv a .nan = .nan := by cases a <;> rfl

@[simp] lemma jsCos_nan : jsCos .nan = .nan := rfl

@[simp] lemma jsSqrt_nan : jsSqrt .nan = .nan := rfl

@[simp] lemma jsFloor_nan : jsFloor .nan = .nan := rfl

/-- The empty string never parses to a number. -/
lemma parseFloatQ_empty : parseFloatQ "" = none := rfl

/-- A string that parses to a float is not empty. -/
lemma parseFloatQ_ne_empty {s : String} {q : ℚ} (h : parseFloatQ s = some q) : s ≠ "" := by
  intro he
  rw [he, parseFloatQ_empty] at h
  exact Option.noConfusion h

/-- A string that parses to an integer is not empty. -/
lemma parseIntZ_ne_empty {s : String} {z : ℤ} (h : parseIntZ s = some z) : s ≠ "" := by
  intro he
  rw [he] at h
  exact Option.noConfusion h

lemma parseFloatJS_eq_num {s : String} {q : ℚ} (h : parseFloatQ s = some q) :
    parseFloatJS s = .num (q : ℝ) := by
  rw [parseFloatJS, h]

lemma parseIntJS_eq_num {s : String} {z : ℤ} (h : parseIntZ s = some z) :
    parseIntJS s = .num (z : ℝ) := by
  rw [parseIntJS, h]

/-- The law-of-cosines radicand is never negative for a real angle. -/
lemma radicand_nonneg (A B t : ℝ) : 0 ≤ A * A + B * B - 2 * A * B * Real.cos t := by
  nlinarith [Real.neg_one_le_cos t, Real.cos_le_one t, sq_nonneg (A - B), sq_nonneg (A + B)]

/-- On finite numeric arguments with a nonzero spokes-per-side divisor,
the inner calculateLength closure computes exactly the specification
formula followed by the floor-to-0.1mm rounding. -/
lemma calculateLength_num (erd shd n pc fd cr : ℝ) (hn2 : n / 2 ≠ 0) :
    calculateLength (.num erd) (.num shd) (.num n) (.num pc) (.num fd) (.num cr)
      = .num (floor10 (specLength pc erd fd shd n cr)) := by
  have hrad : 0 ≤ pc / 2 * (pc / 2) + erd / 2 * (erd / 2) -
      2 * (pc / 2) * (erd / 2) * Real.cos (2 * Real.pi * cr / (n / 2)) :=
    radicand_nonneg _ _ _
  unfold calculateLength
  rw [jsDiv_num_num pc 2 two_ne_zero, jsDiv_num_num erd 2 two_ne_zero,
    jsDiv_num_num n 2 two_ne_zero]
  simp only [jsMul_num_num]
  rw [jsDiv_num_num _ _ hn2]
  simp only [jsCos_num, jsMul_num_num, jsAdd_num_num, jsSub_num_num]
  rw [jsSqrt_num_of_nonneg hrad]
  simp only [jsMul_num_num, jsAdd_num_num]
  rw [jsSqrt_num_of_nonneg (add_nonneg (mul_self_nonneg _) (mul_self_nonneg _))]
  rw [jsDiv_num_num shd 2 two_ne_zero]
  simp only [jsSub_num_num, jsMul_num_num, jsFloor_num]
  rw [jsDiv_num_num _ 10 (by norm_num)]
  unfold floor10 specLength
  norm_num
  ring_nf

/-- When all nine fields parse, the calculate handler computes both sides
by the specification formula with floor rounding. -/
lemma calculateSpokeLength_eval (i : Inputs)
    (erdQ pclQ pcrQ fdlQ fdrQ shdQ : ℚ) (nZ clZ crZ : ℤ)
    (h1 : parseFloatQ i.erd = some erdQ)
    (h2 : parseFloatQ i.pitchCircleLeft = some pclQ)
    (h3 : parseFloatQ i.pitchCircleRight = some pcrQ)
    (h4 : parseFloatQ i.flangeDistanceLeft = some fdlQ)
    (h5 : parseFloatQ i.flangeDistanceRight = some fdrQ)
    (h6 : parseFloatQ i.spokeHoleDiameter = some shdQ)
    (h7 : parseIntZ i.numberOfSpokes = some nZ)
    (h8 : parseIntZ i.crossingsLeft = some clZ)
    (h9 : parseIntZ i.crossingsRight = some crZ)
    (hn : (nZ : ℝ) ≠ 0) :
    calculateSpokeLength i = some
      { left := some (.num (floor10 (specLength (pclQ : ℝ) (erdQ : ℝ) (fdlQ : ℝ) (shdQ : ℝ) (nZ : ℝ) (clZ : ℝ)))),
        right := some (.num (floor10 (specLength (pcrQ : ℝ) (erdQ : ℝ) (fdrQ : ℝ) (shdQ : ℝ) (nZ : ℝ) (crZ : ℝ)))) } := by
  have hn2 : (nZ : ℝ) / 2 ≠ 0 := div_ne_zero hn two_ne_zero
  unfold calculateSpokeLength
  rw [if_neg]
  · rw [parseFloatJS_eq_num h1, parseFloatJS_eq_num h2, parseFloatJS_eq_num h3,
      parseFloatJS_eq_num h4, parseFloatJS_eq_num h5, parseFloatJS_eq_num h6,
      parseIntJS_eq_num h7, parseIntJS_eq_num h8, parseIntJS_eq_num h9]
    dsimp only
    rw [calculateLength_num _ _ _ _ _ _ hn2, calculateLength_num _ _ _ _ _ _ hn2]
  · push_neg
    exact ⟨parseFloatQ_ne_empty h1, parseFloatQ_ne_empty h2, parseFloatQ_ne_empty h3,
      parseFloatQ_ne_empty h4, parseFloatQ_ne_empty h5, parseFloatQ_ne_empty h6,
      parseIntZ_ne_empty h7, parseIntZ_ne_empty h8, parseIntZ_ne_empty h9⟩

/-- In exact real arithmetic the radial case of the chord formula
collapses to the absolute radius difference: with zero crossings the
angle is zero, its cosine is one, and the radicand is a perfect square.
The bit-level floating-point form of this property (exactness of the
IEEE double evaluation) is outside the real-number embedding. -/
lemma radial_chord_exact (pcd erd n : ℝ) :
    Real.sqrt ((pcd / 2) ^ 2 + (erd / 2) ^ 2 -
      2 * (pcd / 2) * (erd / 2) * Real.cos (2 * Real.pi * 0 / (n / 2))) =
      |pcd / 2 - erd / 2| := by
  rw [show 2 * Real.pi * 0 / (n / 2) = 0 by ring, Real.cos_zero]
  rw [show (pcd / 2) ^ 2 + (erd / 2) ^ 2 - 2 * (pcd / 2) * (erd / 2) * 1 =
    (pcd / 2 - erd / 2) ^ 2 by ring]
  exact Real.sqrt_sq_eq_abs _

/-- The hub and rim example of the specification: ERD 590, left pitch
circle 45, left flange distance 35, spoke hole 2.6, 32 spokes, 3 cross,
with the right side set to the same values. -/
def hopeInputs : Inputs :=
  { erd := "590", pitchCircleLeft := "45", pitchCircleRight := "45",
    flangeDistanceLeft := "35", flangeDistanceRight := "35",
    spokeHoleDiameter := "2.6", numberOfSpokes := "32",
    crossingsLeft := "3", crossingsRight := "3" }

/-- An input whose ERD field is a lone decimal point: non-empty (the
number-input widget accepts it while typing) but not parseable. -/
def dotInputs : Inputs :=
  { erd := ".", pitchCircleLeft := "45", pitchCircleRight := "45",
    flangeDistanceLeft := "35", flangeDistanceRight := "35",
    spokeHoleDiameter := "2.6", numberOfSpokes := "32",
    crossingsLeft := "3", crossingsRight := "3" }

/-- A nan erdNum value poisons the whole per-side computation. -/
lemma calculateLength_nan_erd (shd n pc fd cr : JSNum) :
    calculateLength .nan shd n pc fd cr = .nan := by
  unfold calculateLength
  simp

/-- Claim C1: for every input record whose nine fields are present and
parseable at their required types, the calculate handler returns for each
side exactly floor of ten times the specification length divided by ten,
where the length combines the law-of-cosines chord with the Pythagorean
step and the spoke-hole correction; and the rounding is a floor, sending
a raw length of 299.96 to 299.9 and never to 300. -/
theorem calculate_formula_correct (i : Inputs)
    (erdQ pclQ pcrQ fdlQ fdrQ shdQ : ℚ) (nZ clZ crZ : ℤ)
    (h1 : parseFloatQ i.erd = some erdQ)
    (h2 : parseFloatQ i.pitchCircleLeft = some pclQ)
    (h3 : parseFloatQ i.pitchCircleRight = some pcrQ)
    (h4 : parseFloatQ i.flangeDistanceLeft = some fdlQ)
    (h5 : parseFloatQ i.flangeDistanceRight = some fdrQ)
    (h6 : parseFloatQ i.spokeHoleDiameter = some shdQ)
    (h7 : parseIntZ i.numberOfSpokes = some nZ)
    (h8 : parseIntZ i.crossingsLeft = some clZ)
    (h9 : parseIntZ i.crossingsRight = some crZ)
    (hp1 : 0 < erdQ) (hp2 : 0 < pclQ) (hp3 : 0 < pcrQ)
    (hp4 : 0 < fdlQ) (hp5 : 0 < fdrQ) (hp6 : 0 < shdQ)
    (hn : 0 < nZ) (heven : 2 ∣ nZ) (hc1 : 0 ≤ clZ) (hc2 : 0 ≤ crZ) :
    calculateSpokeLength i = some
      { left := some (.num (floor10 (specLength (pclQ : ℝ) (erdQ : ℝ) (fdlQ : ℝ) (shdQ : ℝ) (nZ : ℝ) (clZ : ℝ)))),
        right := some (.num (floor10 (specLength (pcrQ : ℝ) (erdQ : ℝ) (fdrQ : ℝ) (shdQ : ℝ) (nZ : ℝ) (crZ : ℝ)))) } ∧
    floor10 299.96 = 299.9 ∧ floor10 299.96 ≠ 300 := by
  have hnR : (nZ : ℝ) ≠ 0 := ne_of_gt (by exact_mod_cast hn)
  have hfl : (⌊(299.96 : ℝ) * 10⌋ : ℤ) = 2999 := by
    rw [Int.floor_eq_iff]
    constructor <;> norm_num
  refine ⟨calculateSpokeLength_eval i erdQ pclQ pcrQ fdlQ fdrQ shdQ nZ clZ crZ
    h1 h2 h3 h4 h5 h6 h7 h8 h9 hnR, ?_, ?_⟩
  · rw [floor10, hfl]
    norm_num
  · rw [floor10, hfl]
    norm_num

/-- Witness for claim C1 at the concrete example input. -/
theorem calculate_formula_correct_witness :
    calculateSpokeLength hopeInputs = some
      { left := some (.num (floor10 (specLength ((45 : ℚ) : ℝ) ((590 : ℚ) : ℝ) ((35 : ℚ) : ℝ) (((13 : ℚ)/5 : ℚ) : ℝ) (((32 : ℤ)) : ℝ) (((3 : ℤ)) : ℝ)))),
        right := some (.num (floor10 (specLength ((45 : ℚ) : ℝ) ((590 : ℚ) : ℝ) ((35 : ℚ) : ℝ) (((13 : ℚ)/5 : ℚ) : ℝ) (((32 : ℤ)) : ℝ) (((3 : ℤ)) : ℝ)))) } ∧
    floor10 299.96 = 299.9 ∧ floor10 299.96 ≠ 300 :=
  calculate_formula_correct hopeInputs 590 45 45 35 35 (13/5) 32 3 3
    (by show parseFloatQ "590" = some 590
        rw [parseFloatQ, show parseFloatParts "590" = some (false, 590, 0, 0) from by decide]
        norm_num [partsToQ])
    (by show parseFloatQ "45" = some 45
        rw [parseFloatQ, show parseFloatParts "45" = some (false, 45, 0, 0) from by decide]
        norm_num [partsToQ])
    (by show parseFloatQ "45" = some 45
        rw [parseFloatQ, show parseFloatParts "45" = some (false, 45, 0, 0) from by decide]
        norm_num [partsToQ])
    (by show parseFloatQ "35" = some 35
        rw [parseFloatQ, show parseFloatParts "35" = some (false, 35, 0, 0) from by decide]
        norm_num [partsToQ])
    (by show parseFloatQ "35" = some 35
        rw [parseFloatQ, show parseFloatParts "35" = some (false, 35, 0, 0) from by decide]
        norm_num [partsToQ])
    (by show parseFloatQ "2.6" = some (13/5)
        rw [parseFloatQ, show parseFloatParts "2.6" = some (false, 2, 6, 1) from by decide]
        norm_num [partsToQ])
    (by decide) (by decide) (by decide)
    (by norm_num) (by norm_num) (by norm_num) (by norm_num) (by norm_num)
    (by norm_num) (by norm_num) (by decide) (by decide) (by decide)

/-- Claim C3 counterexample: the ERD field holds a lone decimal point, so
it is non-empty yet not parseable; the claim demands a validation failure
with no numeric result, but the handler runs the formula and sets both
displayed results to NaN. -/
theorem calculate_accepts_dot_field :
    dotInputs.erd ≠ "" ∧ parseFloatQ dotInputs.erd = none ∧
    calculateSpokeLength dotInputs = some { left := some .nan, right := some .nan } := by
  refine ⟨by decide, by decide, ?_⟩
  unfold calculateSpokeLength
  rw [if_neg (by decide)]
  dsimp only
  have hdot : parseFloatJS dotInputs.erd = .nan := by
    rw [parseFloatJS, show parseFloatQ dotInputs.erd = none from by decide]
  rw [hdot, calculateLength_nan_erd, calculateLength_nan_erd]

/-- Claim C3 (amended): the calculate handler fails with a warning,
leaving the displayed results unchanged, exactly when one of the nine
string fields is empty; a non-empty field receives no parse or range
validation before the formula runs (with the ERD field a lone decimal
point, both displayed results become NaN, as the counterexample
exhibits). -/
theorem calculate_fails_iff_empty_field (i : Inputs) :
    calculateSpokeLength i = none ↔
      (i.erd = "" ∨ i.pitchCircleLeft = "" ∨ i.pitchCircleRight = "" ∨
       i.flangeDistanceLeft = "" ∨ i.flangeDistanceRight = "" ∨
       i.spokeHoleDiameter = "" ∨ i.numberOfSpokes = "" ∨
       i.crossingsLeft = "" ∨ i.crossingsRight = "") := by
  unfold calculateSpokeLength
  split_ifs with h
  · simpa using h
  · simpa using h

/-- Edits applied in order through the handleInputChange handler. -/
def applyEdits (s : AppState) (edits : List (Field × String)) : AppState :=
  edits.foldl (fun st p => handleInputChange st p.1 p.2) s

/-- Field edits never touch the saved collection. -/
lemma applyEdits_savedCalculations : ∀ (edits : List (Field × String)) (s : AppState),
    (applyEdits s edits).savedCalculations = s.savedCalculations
  | [], _ => rfl
  | _ :: rest, s => by
    rw [applyEdits, List.foldl_cons]
    exact (applyEdits_savedCalculations rest _).trans rfl

/-- Claim C5: loading a saved calculation installs exactly its inputs and
results as the working state, and afterwards any sequence of field edits
on the working copy leaves the whole saved collection, hence the loaded
record and every other entry, unchanged. -/
theorem load_then_edit_frame (s : AppState) (c : SavedCalculation)
    (edits : List (Field × String)) :
    (loadCalculation s c).inputs = c.inputs ∧
    (loadCalculation s c).results = c.results ∧
    (applyEdits (loadCalculation s c) edits).savedCalculations = s.savedCalculations :=
  ⟨rfl, rfl, (applyEdits_savedCalculations edits _).trans rfl⟩

/-- A working state with computed results and a pending name. -/
def baseState : AppState :=
  { inputs := hopeInputs,
    results := { left := some (.num 290), right := some (.num 292) },
    savedCalculations := [], calculationName := "front wheel", storage := [] }

/-- The entry a successful save appends: the supplied clock value as id,
the pending name, the working inputs and results, and the timestamp. -/
def savedEntry (now : ℕ) (ts : String) (s : AppState) : SavedCalculation :=
  { id := now, name := s.calculationName, inputs := s.inputs,
    results := s.results, timestamp := ts }

/-- The state after a successful save: one entry appended, the whole
updated collection persisted, the pending name cleared. -/
def afterSave (now : ℕ) (ts : String) (s : AppState) : AppState :=
  { s with savedCalculations := s.savedCalculations ++ [savedEntry now ts s],
           storage := s.savedCalculations ++ [savedEntry now ts s],
           calculationName := "" }

/-- Claim C10: a successful save keeps the active inputs and results
exactly as they were; only the saved collection gains the one new entry
and the pending calculation-name field is cleared. -/
theorem save_preserves_working_state (now : ℕ) (ts : String) (s : AppState)
    (hname : jsTrim s.calculationName ≠ "") (l r : JSNum)
    (hl : s.results.left = some l) (hr : s.results.right = some r) :
    (saveCalculation now ts s).1.inputs = s.inputs ∧
    (saveCalculation now ts s).1.results = s.results ∧
    (saveCalculation now ts s).1.savedCalculations =
      s.savedCalculations ++ [savedEntry now ts s] ∧
    (saveCalculation now ts s).1.calculationName = "" := by
  unfold saveCalculation
  rw [if_neg hname, hl, hr]
  exact ⟨rfl, rfl, rfl, rfl⟩

/-- Witness for claim C10 at a concrete state. -/
theorem save_preserves_working_state_witness :
    (saveCalculation 7 "ts" baseState).1.inputs = baseState.inputs ∧
    (saveCalculation 7 "ts" baseState).1.results = baseState.results ∧
    (saveCalculation 7 "ts" baseState).1.savedCalculations =
      baseState.savedCalculations ++ [savedEntry 7 "ts" baseState] ∧
    (saveCalculation 7 "ts" baseState).1.calculationName = "" :=
  save_preserves_working_state 7 "ts" baseState (by decide) (.num 290) (.num 292) rfl rfl

/-- A state whose pending name is a single space: non-empty, but the
handler trims it before the emptiness test. -/
def blankNameState : AppState :=
  { inputs := hopeInputs,
    results := { left := some (.num 290), right := some (.num 292) },
    savedCalculations := [], calculationName := " ", storage := [] }

/-- Claim C8 counterexample: the pending name is a single space, so it is
not empty, and both result sides are present; the claim then demands that
save appends an entry, but the handler trims the name, rejects it and
leaves everything unchanged. -/
theorem save_rejects_whitespace_name :
    blankNameState.calculationName ≠ "" ∧
    blankNameState.results.left ≠ none ∧
    blankNameState.results.right ≠ none ∧
    (saveCalculation 7 "ts" blankNameState).1 = blankNameState ∧
    (saveCalculation 7 "ts" blankNameState).2 ≠ .saved := by
  have h : jsTrim blankNameState.calculationName = "" := by decide
  refine ⟨by decide, fun hh => Option.noConfusion hh, fun hh => Option.noConfusion hh, ?_, ?_⟩
  · unfold saveCalculation
    rw [if_pos h]
  · unfold saveCalculation
    rw [if_pos h]
    decide

/-- Claim C8 (amended): save fails with a validation warning and changes
nothing when the trimmed name is empty (so also for whitespace-only
names) or when a result side is missing; otherwise it appends exactly one
new entry carrying the supplied clock value and timestamp to the end of
the collection, writes the whole updated collection to storage, keeps
every pre-existing entry and their order, and clears the pending name. -/
theorem save_behaviour (now : ℕ) (ts : String) (s : AppState) :
    (jsTrim s.calculationName = "" → saveCalculation now ts s = (s, .enterCalculationName)) ∧
    (jsTrim s.calculationName ≠ "" → (s.results.left = none ∨ s.results.right = none) →
      saveCalculation now ts s = (s, .performCalculationFirst)) ∧
    (∀ l r : JSNum, jsTrim s.calculationName ≠ "" → s.results.left = some l →
      s.results.right = some r →
      saveCalculation now ts s = (afterSave now ts s, .saved)) := by
  refine ⟨?_, ?_, ?_⟩
  · intro h
    unfold saveCalculation
    rw [if_pos h]
  · intro h hlr
    unfold saveCalculation
    rw [if_neg h]
    rcases hlr with hl | hr
    · rw [hl]
    · rcases hleft : s.results.left with _ | l
      · rfl
      · rw [hr]
  · intro l r h hl hr
    unfold saveCalculation
    rw [if_neg h, hl, hr]
    rfl

/-- Witness for claim C8 on the success branch at a concrete state. -/
theorem save_behaviour_witness :
    saveCalculation 7 "ts" baseState = (afterSave 7 "ts" baseState, .saved) :=
  (save_behaviour 7 "ts" baseState).2.2 (.num 290) (.num 292) (by decide) rfl rfl

/-- One operation either keeps or shrinks the id list, or, for a
successful save with clock value now, appends now to it. -/
lemma savedIds_applyOp_cases (s : AppState) (op : Op) :
    List.Sublist (savedIds (applyOp s op)) (savedIds s) ∨
    (∃ now ts, op = .save now ts ∧ savedIds (applyOp s op) = savedIds s ++ [now]) := by
  cases op with
  | edit f v => exact Or.inl (List.Sublist.refl _)
  | setName v => exact Or.inl (List.Sublist.refl _)
  | calculate =>
    refine Or.inl ?_
    simp only [applyOp]
    rcases calculateSpokeLength s.inputs with _ | r
    · exact List.Sublist.refl _
    · exact List.Sublist.refl _
  | load idx =>
    refine Or.inl ?_
    simp only [applyOp]
    rcases s.savedCalculations.get? idx with _ | c
    · exact List.Sublist.refl _
    · exact List.Sublist.refl _
  | delete id =>
    refine Or.inl ?_
    simp only [applyOp, confirmDelete]
    exact List.Sublist.map _ (List.filter_sublist _)
  | save now ts =>
    simp only [applyOp, saveCalculation]
    split_ifs with hname
    · exact Or.inl (List.Sublist.refl _)
    · rcases hL : s.results.left with _ | l
      · exact Or.inl (List.Sublist.refl _)
      · rcases hR : s.results.right with _ | r
        · exact Or.inl (List.Sublist.refl _)
        · exact Or.inr ⟨now, ts, rfl, by simp [savedIds]⟩

/-- When the initial ids and the save-time clock values are jointly
distinct, every reachable collection has pairwise distinct ids. -/
lemma savedIds_applyOps_nodup : ∀ (ops : List Op) (s : AppState),
    (savedIds s ++ saveTimes ops).Nodup → (savedIds (applyOps s ops)).Nodup
  | [], s, h => by
    rw [applyOps]
    simpa [saveTimes] using h
  | op :: rest, s, h => by
    have happ : applyOps s (op :: rest) = applyOps (applyOp s op) rest := by
      rw [applyOps, List.foldl_cons]
      rfl
    rw [happ]
    apply savedIds_applyOps_nodup rest
    rcases savedIds_applyOp_cases s op with hsub | ⟨now, ts, hop, heq⟩
    · have ht : List.Sublist (saveTimes rest) (saveTimes (op :: rest)) := by
        cases op with
        | save n t => exact List.sublist_cons_self _ _
        | edit f v => exact List.Sublist.refl _
        | setName v => exact List.Sublist.refl _
        | calculate => exact List.Sublist.refl _
        | load idx => exact List.Sublist.refl _
        | delete id => exact List.Sublist.refl _
      exact h.sublist (List.Sublist.append hsub ht)
    · subst hop
      rw [heq, List.append_assoc]
      exact h

/-- Claim C4 counterexample: two saves in the same millisecond (the
Date.now clock returns 1000 both times, with only a rename in between so
the second save passes the name guard) leave two entries that share the
id 1000. -/
theorem duplicate_ids_after_same_millisecond_saves :
    savedIds (applyOps baseState [.save 1000 "t", .setName "b", .save 1000 "t"]) =
      [1000, 1000] ∧
    ¬ (savedIds (applyOps baseState [.save 1000 "t", .setName "b", .save 1000 "t"])).Nodup := by
  have h : savedIds (applyOps baseState [.save 1000 "t", .setName "b", .save 1000 "t"]) =
      [1000, 1000] := rfl
  exact ⟨h, by rw [h]; decide⟩

/-- Claim C4 (amended): provided the clock values consumed by the save
operations are pairwise distinct and distinct from every pre-existing id
(as with a strictly increasing millisecond clock), every sequence of
operations leaves the saved ids pairwise distinct. -/
theorem unique_ids_with_distinct_save_times (s : AppState) (ops : List Op)
    (h : (savedIds s ++ saveTimes ops).Nodup) :
    (savedIds (applyOps s ops)).Nodup :=
  savedIds_applyOps_nodup ops s h

/-- Witness for claim C4 with two saves at distinct clock values. -/
theorem unique_ids_with_distinct_save_times_witness :
    (savedIds (applyOps baseState [.save 1 "t", .setName "b", .save 2 "t"])).Nodup :=
  unique_ids_with_distinct_save_times baseState [.save 1 "t", .setName "b", .save 2 "t"]
    (by decide)

/-- A dynamic working state with nothing loaded yet. -/
def emptyDyn : DynState := ⟨.jnull, .jnull⟩

/-- Import succeeds on an object document whose inputs and results
members are present and truthy, installing exactly those members. -/
lemma loadFromJSON_obj_truthy (fs : List (String × Json)) (s : DynState) (vi vr : Json)
    (h1 : lookupKey fs "inputs" = some vi) (h2 : lookupKey fs "results" = some vr)
    (t1 : vi.truthy) (t2 : vr.truthy) :
    loadFromJSON (some (.jobj fs)) s = (⟨vi, vr⟩, .jsonLoaded) := by
  simp only [loadFromJSON, Json.getField]
  rw [h1, h2]
  dsimp only
  rw [if_pos (And.intro t1 t2)]

/-- A document that is parseable and carries both top-level keys, but
whose inputs value is null. -/
def nullInputsDoc : Json := .jobj [("inputs", .jnull), ("results", .jobj [])]

/-- Claim C6 counterexample: the document carries both the inputs and the
results top-level key, so by the claim import must succeed, but the
handler tests truthiness, the null inputs value is falsy, and import
fails with a format error (leaving the state unchanged). -/
theorem import_rejects_null_valued_inputs_key :
    nullInputsDoc.hasKey "inputs" = true ∧
    nullInputsDoc.hasKey "results" = true ∧
    loadFromJSON (some nullInputsDoc) emptyDyn = (emptyDyn, .invalidJsonFormat) := by
  refine ⟨rfl, rfl, ?_⟩
  simp only [nullInputsDoc, loadFromJSON, Json.getField]
  rw [show lookupKey [("inputs", Json.jnull), ("results", Json.jobj [])] "inputs" =
      some Json.jnull from rfl]
  rw [show lookupKey [("inputs", Json.jnull), ("results", Json.jobj [])] "results" =
      some (Json.jobj []) from rfl]
  dsimp only
  rw [if_neg]
  rintro ⟨hfalse, -⟩
  exact hfalse

/-- Import succeeds exactly on a parsed document carrying truthy inputs
and results members. -/
def importOk (raw : Option Json) : Prop :=
  ∃ j vi vr, raw = some j ∧ j.getField "inputs" = some vi ∧
    j.getField "results" = some vr ∧ vi.truthy ∧ vr.truthy

/-- Case analysis of the import handler: the success branch installs the
two members, every other branch keeps the state and reports an error. -/
lemma loadFromJSON_eq (raw : Option Json) (s : DynState) :
    (∀ j vi vr, raw = some j → j.getField "inputs" = some vi →
      j.getField "results" = some vr → vi.truthy → vr.truthy →
      loadFromJSON raw s = (⟨vi, vr⟩, .jsonLoaded)) ∧
    (¬ importOk raw → (loadFromJSON raw s).1 = s ∧ (loadFromJSON raw s).2 ≠ .jsonLoaded) := by
  constructor
  · intro j vi vr hraw h1 h2 t1 t2
    subst hraw
    cases j with
    | jobj fs =>
      simp only [Json.getField] at h1 h2
      exact loadFromJSON_obj_truthy fs s vi vr h1 h2 t1 t2
    | jnull => exact absurd h1 (by simp [Json.getField])
    | jbool b => exact absurd h1 (by simp [Json.getField])
    | jnum x => exact absurd h1 (by simp [Json.getField])
    | jstr t => exact absurd h1 (by simp [Json.getField])
    | jarr es => exact absurd h1 (by simp [Json.getField])
  · intro hno
    cases raw with
    | none => exact ⟨rfl, fun hc => ImportMsg.noConfusion hc⟩
    | some j =>
      cases j with
      | jnull => exact ⟨rfl, fun hc => ImportMsg.noConfusion hc⟩
      | jbool b => exact ⟨rfl, fun hc => ImportMsg.noConfusion hc⟩
      | jnum x => exact ⟨rfl, fun hc => ImportMsg.noConfusion hc⟩
      | jstr t => exact ⟨rfl, fun hc => ImportMsg.noConfusion hc⟩
      | jarr es => exact ⟨rfl, fun hc => ImportMsg.noConfusion hc⟩
      | jobj fs =>
        rcases h1 : lookupKey fs "inputs" with _ | vi
        · have : loadFromJSON (some (.jobj fs)) s = (s, .invalidJsonFormat) := by
            simp only [loadFromJSON, Json.getField]
            rw [h1]
          rw [this]
          exact ⟨rfl, fun hc => ImportMsg.noConfusion hc⟩
        · rcases h2 : lookupKey fs "results" with _ | vr
          · have : loadFromJSON (some (.jobj fs)) s = (s, .invalidJsonFormat) := by
              simp only [loadFromJSON, Json.getField]
              rw [h1, h2]
            rw [this]
            exact ⟨rfl, fun hc => ImportMsg.noConfusion hc⟩
          · by_cases ht : vi.truthy ∧ vr.truthy
            · exact absurd ⟨.jobj fs, vi, vr, rfl, h1, h2, ht.1, ht.2⟩ hno
            · have : loadFromJSON (some (.jobj fs)) s = (s, .invalidJsonFormat) := by
                simp only [loadFromJSON, Json.getField]
                rw [h1, h2]
                dsimp only
                rw [if_neg ht]
              rw [this]
              exact ⟨rfl, fun hc => ImportMsg.noConfusion hc⟩

/-- Claim C6 (amended): import succeeds exactly when the document parses
and its inputs and results members are present and truthy (so a present
but null, false, zero or empty-string member is rejected just like a
missing key); on any failure the working inputs and results are left
unchanged, and on success they are replaced by the two member values with
no further field-level validation. -/
theorem import_fails_iff (raw : Option Json) (s : DynState) :
    ((loadFromJSON raw s).2 = .jsonLoaded ↔ importOk raw) ∧
    ((loadFromJSON raw s).2 ≠ .jsonLoaded → (loadFromJSON raw s).1 = s) ∧
    (∀ j vi vr, raw = some j → j.getField "inputs" = some vi →
      j.getField "results" = some vr → vi.truthy → vr.truthy →
      loadFromJSON raw s = (⟨vi, vr⟩, .jsonLoaded)) := by
  obtain ⟨hpos, hneg⟩ := loadFromJSON_eq raw s
  refine ⟨⟨?_, ?_⟩, ?_, hpos⟩
  · intro h
    by_contra hno
    exact (hneg hno).2 h
  · rintro ⟨j, vi, vr, hraw, h1, h2, t1, t2⟩
    rw [hpos j vi vr hraw h1 h2 t1 t2]
  · intro h
    by_cases hok : importOk raw
    · rcases hok with ⟨j, vi, vr, hraw, h1, h2, t1, t2⟩
      rw [hpos j vi vr hraw h1 h2 t1 t2] at h
      exact absurd rfl h
    · exact (hneg hok).1

/-- A well-formed minimal import document. -/
def goodDoc : Json := .jobj [("inputs", .jobj []), ("results", .jobj [])]

/-- Witness for claim C6 on the success branch at a concrete document. -/
theorem import_fails_iff_witness :
    loadFromJSON (some goodDoc) emptyDyn = (⟨.jobj [], .jobj []⟩, .jsonLoaded) :=
  (import_fails_iff (some goodDoc) emptyDyn).2.2 goodDoc (.jobj []) (.jobj [])
    rfl rfl rfl trivial trivial

/-- Claim C7 (amended): for every input record and every computed result
both of whose sides are finite numbers, importing the exported document
succeeds and installs exactly the encoded inputs and results, and those
encodings decode back to the original records; a NaN result side instead
serializes to null, which is what the counterexample exhibits. -/
theorem export_import_roundtrip (ts : String) (i : Inputs) (r : Results) (s : DynState)
    (x y : ℝ) (hl : r.left = some (.num x)) (hr : r.right = some (.num y)) :
    loadFromJSON (exportToJSON ts i r) s = (⟨encodeInputs i, encodeResults r⟩, .jsonLoaded) ∧
    decodeInputs (encodeInputs i) = some i ∧
    decodeResults (encodeResults r) = some r := by
  obtain ⟨rl, rr⟩ := r
  change rl = some (.num x) at hl
  change rr = some (.num y) at hr
  subst hl
  subst hr
  refine ⟨?_, rfl, rfl⟩
  exact loadFromJSON_obj_truthy _ s _ _ rfl rfl trivial trivial

/-- A fully numeric computed result record. -/
def numResults : Results := ⟨some (.num 290), some (.num 292)⟩

/-- Witness for claim C7 at a concrete record. -/
theorem export_import_roundtrip_witness :
    loadFromJSON (exportToJSON "t" hopeInputs numResults) emptyDyn =
      (⟨encodeInputs hopeInputs, encodeResults numResults⟩, .jsonLoaded) ∧
    decodeInputs (encodeInputs hopeInputs) = some hopeInputs ∧
    decodeResults (encodeResults numResults) = some numResults :=
  export_import_roundtrip "t" hopeInputs numResults emptyDyn 290 292 rfl rfl

/-- A result record both of whose sides are NaN: computed (non-null), but
not a finite number. -/
def nanResults : Results := ⟨some .nan, some .nan⟩

/-- The document export produces for NaN results: stringify turns each
NaN into null. -/
def nanExportDoc : Json :=
  .jobj [("inputs", encodeInputs hopeInputs),
         ("results", .jobj [("left", .jnull), ("right", .jnull)]),
         ("timestamp", .jstr "t"),
         ("metadata", .jobj [("calculator", .jstr "Bicycle Spoke Length Calculator"),
                             ("version", .jstr "1.0")])]

/-- Claim C7 counterexample: a NaN result record has both sides present,
so the claim demands an exact round trip, but stringify serializes NaN as
null; export succeeds, import succeeds, and the restored results are the
null record, not the original one. -/
theorem export_import_loses_nan :
    nanResults.left ≠ none ∧ nanResults.right ≠ none ∧
    exportToJSON "t" hopeInputs nanResults = some nanExportDoc ∧
    loadFromJSON (exportToJSON "t" hopeInputs nanResults) emptyDyn =
      (⟨encodeInputs hopeInputs, .jobj [("left", .jnull), ("right", .jnull)]⟩, .jsonLoaded) ∧
    decodeResults (.jobj [("left", .jnull), ("right", .jnull)]) = some ⟨none, none⟩ ∧
    (⟨none, none⟩ : Results) ≠ nanResults := by
  refine ⟨fun h => Option.noConfusion h, fun h => Option.noConfusion h, rfl, ?_, rfl, ?_⟩
  · rw [show exportToJSON "t" hopeInputs nanResults = some nanExportDoc from rfl]
    exact loadFromJSON_obj_truthy _ _ _ _ rfl rfl trivial trivial
  · intro h
    exact Option.noConfusion (congrArg Results.left h)

/-! Concrete parse evaluations for the example input. -/

lemma parseFloatQ_590 : parseFloatQ "590" = some 590 := by
  rw [parseFloatQ, show parseFloatParts "590" = some (false, 590, 0, 0) from by decide]
  norm_num [partsToQ]

lemma parseFloatQ_45 : parseFloatQ "45" = some 45 := by
  rw [parseFloatQ, show parseFloatParts "45" = some (false, 45, 0, 0) from by decide]
  norm_num [partsToQ]

lemma parseFloatQ_35 : parseFloatQ "35" = some 35 := by
  rw [parseFloatQ, show parseFloatParts "35" = some (false, 35, 0, 0) from by decide]
  norm_num [partsToQ]

lemma parseFloatQ_26 : parseFloatQ "2.6" = some (13/5) := by
  rw [parseFloatQ, show parseFloatParts "2.6" = some (false, 2, 6, 1) from by decide]
  norm_num [partsToQ]

lemma parseIntZ_32 : parseIntZ "32" = some 32 := by decide

lemma parseIntZ_3 : parseIntZ "3" = some 3 := by decide

/-- Bounds on the example spoke length before rounding: the angle is
three-eighths pi, its cosine is the square root of two minus root two,
halved, and the resulting length lies between 287.9 and 288. -/
lemma hope_specLength_bounds :
    287.9 ≤ specLength 45 590 35 (13/5) 32 3 ∧ specLength 45 590 35 (13/5) 32 3 < 288 := by
  have h8 : Real.cos (2 * Real.pi * 3 / ((32 : ℝ) / 2)) = Real.sqrt (2 - Real.sqrt 2) / 2 := by
    rw [show 2 * Real.pi * 3 / ((32 : ℝ) / 2) = Real.pi / 2 - Real.pi / 8 by ring]
    rw [Real.cos_pi_div_two_sub, Real.sin_pi_div_eight]
  have s2l : (1.414213 : ℝ) ≤ Real.sqrt 2 :=
    (Real.le_sqrt (by norm_num) (by norm_num)).mpr (by norm_num)
  have s2u : Real.sqrt 2 < 1.414214 :=
    (Real.sqrt_lt' (by norm_num)).mpr (by norm_num)
  have hs : (0 : ℝ) ≤ 2 - Real.sqrt 2 := by linarith
  have t_l : (0.765366 : ℝ) ≤ Real.sqrt (2 - Real.sqrt 2) :=
    (Real.le_sqrt (by norm_num) hs).mpr (by nlinarith)
  have t_u : Real.sqrt (2 - Real.sqrt 2) < 0.765368 :=
    (Real.sqrt_lt' (by norm_num)).mpr (by nlinarith)
  unfold specLength
  rw [h8]
  have hr_l : (82451.119 : ℝ) ≤
      (45 / 2 : ℝ) ^ 2 + (590 / 2) ^ 2 -
        2 * (45 / 2) * (590 / 2) * (Real.sqrt (2 - Real.sqrt 2) / 2) := by
    nlinarith [t_u]
  have hr_u : (45 / 2 : ℝ) ^ 2 + (590 / 2) ^ 2 -
      2 * (45 / 2) * (590 / 2) * (Real.sqrt (2 - Real.sqrt 2) / 2) < 82451.134 := by
    nlinarith [t_l]
  have hr0 : (0 : ℝ) ≤ (45 / 2 : ℝ) ^ 2 + (590 / 2) ^ 2 -
      2 * (45 / 2) * (590 / 2) * (Real.sqrt (2 - Real.sqrt 2) / 2) := by
    linarith
  have hsq : Real.sqrt ((45 / 2 : ℝ) ^ 2 + (590 / 2) ^ 2 -
      2 * (45 / 2) * (590 / 2) * (Real.sqrt (2 - Real.sqrt 2) / 2)) ^ 2 =
      (45 / 2 : ℝ) ^ 2 + (590 / 2) ^ 2 -
        2 * (45 / 2) * (590 / 2) * (Real.sqrt (2 - Real.sqrt 2) / 2) :=
    Real.sq_sqrt hr0
  have hL_l : (289.2682 : ℝ) ≤
      Real.sqrt (Real.sqrt ((45 / 2 : ℝ) ^ 2 + (590 / 2) ^ 2 -
        2 * (45 / 2) * (590 / 2) * (Real.sqrt (2 - Real.sqrt 2) / 2)) ^ 2 + 35 ^ 2) :=
    (Real.le_sqrt (by norm_num) (by positivity)).mpr (by nlinarith [hsq, hr_l])
  have hL_u : Real.sqrt (Real.sqrt ((45 / 2 : ℝ) ^ 2 + (590 / 2) ^ 2 -
      2 * (45 / 2) * (590 / 2) * (Real.sqrt (2 - Real.sqrt 2) / 2)) ^ 2 + 35 ^ 2) <
      289.2684 :=
    (Real.sqrt_lt' (by norm_num)).mpr (by nlinarith [hsq, hr_u])
  constructor
  · linarith
  · linarith

/-- At the example input, the calculate handler yields exactly 287.9 mm
for each side. -/
lemma hope_example_eval :
    calculateSpokeLength hopeInputs =
      some { left := some (.num 287.9), right := some (.num 287.9) } := by
  rw [calculateSpokeLength_eval hopeInputs 590 45 45 35 35 (13/5) 32 3 3
    parseFloatQ_590 parseFloatQ_45 parseFloatQ_45 parseFloatQ_35 parseFloatQ_35
    parseFloatQ_26 parseIntZ_32 parseIntZ_3 parseIntZ_3 (by norm_num)]
  have hcast : specLength ((45 : ℚ) : ℝ) ((590 : ℚ) : ℝ) ((35 : ℚ) : ℝ)
      (((13 : ℚ) / 5 : ℚ) : ℝ) (((32 : ℤ)) : ℝ) (((3 : ℤ)) : ℝ) =
      specLength 45 590 35 (13 / 5) 32 3 := by
    norm_num
  rw [hcast]
  have hfl : floor10 (specLength 45 590 35 (13 / 5) 32 3) = 287.9 := by
    obtain ⟨hb1, hb2⟩ := hope_specLength_bounds
    rw [floor10]
    have hz : (⌊specLength 45 590 35 (13 / 5) 32 3 * 10⌋ : ℤ) = 2879 := by
      rw [Int.floor_eq_iff]
      constructor
      · push_cast
        nlinarith
      · push_cast
        nlinarith
    rw [hz]
    norm_num
  rw [hfl]

/-- Claim C9 counterexample: the claimed left spoke length of
approximately 291.5 mm is wrong at the stated input; the handler computes
exactly 287.9 mm, more than three millimetres away. -/
theorem hope_example_not_291_5 :
    calculateSpokeLength hopeInputs =
      some { left := some (.num 287.9), right := some (.num 287.9) } ∧
    (287.9 : ℝ) ≠ 291.5 ∧ (291.5 : ℝ) - 287.9 > 3 :=
  ⟨hope_example_eval, by norm_num, by norm_num⟩

/-- Claim C9 (amended): for the input ERD 590, pitch circle 45, flange
distance 35, spoke hole 2.6, 32 spokes, 3 cross, the computed spoke
length is exactly 287.9 mm (via A 22.5, B 295, sixteen spokes per side,
theta three-eighths pi), not approximately 291.5 mm. -/
theorem hope_example_length :
    calculateSpokeLength hopeInputs =
      some { left := some (.num 287.9), right := some (.num 287.9) } :=
  hope_example_eval

end SpokeCalc








